import Mathlib

/-!
Verification of the piano-sheet-generator frontend orchestration core.

Shallow embedding of the source files:
  src/frontend/src/lib/api.ts
  src/frontend/src/components/UploadForm.tsx
  src/frontend/src/components/SourceSelector.tsx
  src/frontend/src/components/DifficultyTabs.tsx
  src/frontend/src/app/page.tsx

Handlers performing network calls and arming timers are embedded as pure
functions from the submitted input and the HTTP outcome of each network
request to the list of observable events the handler performs, in program
order.  A small interpreter (`statesOf` / `render`) replays a trace over the
component state (the React useState cells) and computes the view rendered
after each step, so that claims about screens visited and terminal states
become statements about traces.
-/

namespace PSG

/-- Wire shape of a sheet-music result (api.ts `SheetMusicResponse`):
three ABC-notation scores and the detected key. -/
structure SheetMusicResponse where
  beginner : String
  intermediate : String
  advanced : String
  key : String
deriving DecidableEq, Repr

/-- Video metadata (api.ts `VideoMetadata`).  The declared TypeScript
interface in src carries video_id/title/channel/thumbnail/duration_seconds;
the `song_title` and `artist` fields are Modelled from the spec: the backend
producing this JSON is not under src (spec section 3, VideoMetadata has
"optional songTitle, optional artist"), and UploadForm.tsx reads
`original.song_title` / `original.artist` at runtime. -/
structure VideoMetadata where
  video_id : String
  title : String
  channel : String
  thumbnail : String
  duration_seconds : Nat
  song_title : Option String
  artist : Option String
deriving DecidableEq, Repr

/-- api.ts `VideoCoverCandidate extends VideoMetadata { url }`. -/
structure VideoCoverCandidate extends VideoMetadata where
  url : String
deriving DecidableEq, Repr

/-- api.ts `YouTubeAnalyzeResponse`. -/
structure YouTubeAnalyzeResponse where
  original : VideoMetadata
  piano_covers : List VideoCoverCandidate
deriving DecidableEq, Repr

/-- api.ts `DemucsStatusResponse`. -/
structure DemucsStatusResponse where
  available : Bool
  model_name : String
deriving DecidableEq, Repr

/-- The JSON object obtained from `res.json()` on a non-2xx response:
`detail` is present and a string, or absent. -/
structure ErrorBody where
  detail : Option String
deriving DecidableEq, Repr

/-- Outcome of one `fetch` call, as observed by the api functions:
the fetch promise rejects (network-level failure, carrying the rejection
message), or a response arrives with `res.ok = false` (its body parsing as
JSON to `some body`, or failing to parse, `none`), or a 2xx response whose
body parses as the expected value. -/
inductive HttpOutcome (α : Type) where
  | networkError (msg : String)
  | failure (body : Option ErrorBody)
  | success (value : α)
deriving DecidableEq, Repr

/-- JavaScript `s || fallback` on strings: the empty string is falsy. -/
def jsOr (s fallback : String) : String :=
  if s = "" then fallback else s

/-- The error message thrown for a non-2xx response, common to all api.ts
functions: `const error = await res.json().catch(() => ({ detail: "不明なエラー" }));
throw new Error(error.detail || fallback)`.  A missing `detail` property is
`undefined`, hence falsy. -/
def errorDetail (fallback : String) (body : Option ErrorBody) : String :=
  match body with
  | none => jsOr "不明なエラー" fallback
  | some b => jsOr (b.detail.getD "") fallback

/-- api.ts `transcribeUpload`: result as a function of the fetch outcome.
A rejected fetch propagates; a non-2xx response throws the detail message
with fallback "楽譜の生成に失敗しました". -/
def transcribeUploadResult (o : HttpOutcome SheetMusicResponse) :
    Except String SheetMusicResponse :=
  match o with
  | .networkError m => .error m
  | .failure b => .error (errorDetail "楽譜の生成に失敗しました" b)
  | .success v => .ok v

/-- api.ts `transcribeYoutube`: same error handling as `transcribeUpload`. -/
def transcribeYoutubeResult (o : HttpOutcome SheetMusicResponse) :
    Except String SheetMusicResponse :=
  match o with
  | .networkError m => .error m
  | .failure b => .error (errorDetail "楽譜の生成に失敗しました" b)
  | .success v => .ok v

/-- api.ts `analyzeYoutube`: fallback "動画の分析に失敗しました". -/
def analyzeYoutubeResult (o : HttpOutcome YouTubeAnalyzeResponse) :
    Except String YouTubeAnalyzeResponse :=
  match o with
  | .networkError m => .error m
  | .failure b => .error (errorDetail "動画の分析に失敗しました" b)
  | .success v => .ok v

/-- Modelled from the spec: `transcribeEnsemble` is imported by
UploadForm.tsx but its definition in api.ts is missing from src.  Spec
section 6: `POST /transcribe/ensemble` returns SheetMusicResult, with the
common non-2xx detail handling and generic localized fallback. -/
def transcribeEnsembleResult (o : HttpOutcome SheetMusicResponse) :
    Except String SheetMusicResponse :=
  match o with
  | .networkError m => .error m
  | .failure b => .error (errorDetail "楽譜の生成に失敗しました" b)
  | .success v => .ok v

/-- api.ts `getDemucsStatus`: a non-2xx response returns
`{ available: false, model_name: "htdemucs" }` instead of throwing, but a
rejected fetch (network-level failure) propagates uncaught. -/
def getDemucsStatusResult (o : HttpOutcome DemucsStatusResponse) :
    Except String DemucsStatusResponse :=
  match o with
  | .networkError m => .error m
  | .failure _ => .ok ⟨false, "htdemucs"⟩
  | .success v => .ok v

/-- UploadForm.tsx: `getDemucsStatus().then((s) => setDemucsAvailable(s.available))`
with initial state `false` and no rejection handler: the cell holds `true`
exactly when the status call resolved with `available = true`. -/
def demucsAvailableAfter (o : HttpOutcome DemucsStatusResponse) : Bool :=
  match getDemucsStatusResult o with
  | .ok s => s.available
  | .error _ => false

/-- UploadForm.tsx `handleSelectOriginal`'s transcription mode. -/
inductive Mode where
  | direct
  | demucs
deriving DecidableEq, Repr

/-- A submitted local file as seen by `handleFile`: `file.name`,
`file.type` (declared MIME type) and `file.size` in bytes. -/
structure LocalFile where
  name : String
  type : String
  size : Nat
deriving DecidableEq, Repr

/-- Body of `POST /api/transcribe/youtube`.  The wire contract (spec
section 6) has optional songTitle/artist fields; api.ts serializes
`JSON.stringify({ url, mode })`, so the hint fields of the body it sends
are always absent (`none`). -/
structure YoutubeBody where
  url : String
  mode : Mode
  songTitle : Option String
  artist : Option String
deriving DecidableEq, Repr

/-- Body of `POST /api/transcribe/ensemble`, as called by UploadForm.tsx:
`transcribeEnsemble(urls, songTitle, artist)` with string hints (empty
string when the analysis carried no hint). -/
structure EnsembleBody where
  urls : List String
  songTitle : String
  artist : String
deriving DecidableEq, Repr

/-- One dispatched network request, tagged by endpoint. -/
inductive Request where
  | upload (f : LocalFile)
  | youtube (b : YoutubeBody)
  | ensemble (b : EnsembleBody)
  | analyze (url : String)
  | demucsStatus
deriving DecidableEq, Repr

/-- Observable events performed by the UploadForm handlers, in program
order: state-cell updates (`setIsLoading`/`setLoadingMessage`/`setAnalysis`),
callbacks to the page (`onResult`/`onError`), network dispatches, and timer
arming/cancellation.  `armTimeout` records the delay and the label its
callback would set; `clearTimeoutEv` / `clearIntervalEv` record
cancellations (the source contains no `clearTimeout` call at all). -/
inductive Event where
  | showError (msg : String)
  | deliverResult (r : SheetMusicResponse)
  | post (req : Request)
  | armTimeout (delayMs : Nat) (label : String)
  | clearTimeoutEv (delayMs : Nat)
  | armInterval (periodMs : Nat)
  | clearIntervalEv
  | setLoading (b : Bool)
  | setMessage (msg : String)
  | setAnalysisState (a : Option YouTubeAnalyzeResponse)
deriving DecidableEq, Repr

/-- UploadForm.tsx allow-list of declared MIME types. -/
def validTypes : List String :=
  ["audio/mpeg", "audio/wav", "audio/x-wav", "audio/mp3"]

/-- UploadForm.tsx `validTypes.includes(file.type)`. -/
def isValidMime (t : String) : Bool :=
  validTypes.contains t

/-- JavaScript `String.prototype.trim`: strip leading and trailing
whitespace (structural version of `String.trim`, so that proofs can
evaluate it). -/
def jsTrim (s : String) : String :=
  ⟨((s.data.dropWhile Char.isWhitespace).reverse.dropWhile
      Char.isWhitespace).reverse⟩

/-- Case-insensitive suffix test on strings, character by character. -/
def endsWithCI (s suffix : String) : Bool :=
  (suffix.data.map Char.toLower).isSuffixOf (s.data.map Char.toLower)

/-- UploadForm.tsx `file.name.match(/\.(mp3|wav)$/i)`: the filename ends in
".mp3" or ".wav" case-insensitively (`$` anchors at the very end of the
string in a JavaScript regex without the m flag). -/
def matchesAudioExt (name : String) : Bool :=
  endsWithCI name ".mp3" || endsWithCI name ".wav"

def unsupportedFormatMsg : String := "MP3またはWAVファイルをアップロードしてください。"

def fileTooLargeMsg : String := "ファイルサイズは20MB以下にしてください。"

def emptyUrlMsg : String := "YouTube URLを入力してください。"

/-- The message a caught exception surfaces through `onError`
(`e instanceof Error ? e.message : fallback`); every failure modelled here
is an `Error`, so the thrown message itself is surfaced. -/
def caughtMsg (e : Except String SheetMusicResponse) : Option String :=
  match e with
  | .ok _ => none
  | .error m => some m

/-- UploadForm.tsx `handleFile`, as the event trace it performs given the
submitted file and the outcome of the upload request.  Validation:
MIME-type allow-list with filename-extension fallback, then the
20 * 1024 * 1024 byte size bound; both reject before any fetch.  On the
valid path two label timeouts are armed (5s, 15s) and never cancelled;
the `finally` block resets the loading cells. -/
def handleFile (f : LocalFile) (o : HttpOutcome SheetMusicResponse) :
    List Event :=
  if !isValidMime f.type && !matchesAudioExt f.name then
    [.showError unsupportedFormatMsg]
  else if f.size > 20 * 1024 * 1024 then
    [.showError fileTooLargeMsg]
  else
    [.setLoading true, .setMessage "音声を分析しています...",
     .armTimeout 5000 "音符を検出しています...",
     .armTimeout 15000 "楽譜を生成しています...",
     .post (.upload f)] ++
    (match transcribeUploadResult o with
     | .ok r => [.deliverResult r]
     | .error m => [.showError m]) ++
    [.setLoading false, .setMessage ""]

/-- The ensemble progress label `` `${count}件のカバーをダウンロード中... (${step}/${count})` ``. -/
def coverProgressMsg (count step : Nat) : String :=
  toString count ++ "件のカバーをダウンロード中... (" ++ toString step ++
    "/" ++ toString count ++ ")"

/-- UploadForm.tsx `handleAnalyze`: trims and rejects an empty URL, runs
the analysis request, stores the result in the `analysis` cell, and when
`piano_covers.length >= 1` immediately dispatches one ensemble request
with every cover URL in returned order plus the original's
song-title/artist hints (`x || ""`).  The 30s step-counter interval is
cleared only on ensemble success — the catch path (`setAnalysis(null)`,
`onError`) does not clear it.  The `finally` block resets the loading
cells in every branch. -/
def handleAnalyze (url : String) (aO : HttpOutcome YouTubeAnalyzeResponse)
    (eO : HttpOutcome SheetMusicResponse) : List Event :=
  if jsTrim url = "" then
    [.showError emptyUrlMsg]
  else
    [.setLoading true, .setMessage "動画を分析しています...",
     .post (.analyze (jsTrim url))] ++
    (match analyzeYoutubeResult aO with
     | .error m => [.setAnalysisState none, .showError m]
     | .ok result =>
       [.setAnalysisState (some result)] ++
       (if result.piano_covers.length ≥ 1 then
         [.setMessage (coverProgressMsg result.piano_covers.length 1),
          .armInterval 30000,
          .post (.ensemble ⟨result.piano_covers.map (fun c => c.url),
                            result.original.song_title.getD "",
                            result.original.artist.getD ""⟩)] ++
         (match transcribeEnsembleResult eO with
          | .ok r => [.clearIntervalEv, .deliverResult r]
          | .error m => [.setAnalysisState none, .showError m])
        else [])) ++
    [.setLoading false, .setMessage ""]

/-- UploadForm.tsx `handleSelectOriginal`: three label timeouts (10s, 20s,
30s), never cancelled, then the youtube transcription request.  The
handler computes `songTitle`/`artist` from the held analysis and passes
them as extra arguments, but api.ts `transcribeYoutube(url, mode)` accepts
only two parameters and serializes `{ url, mode }`, so the dispatched body
carries no hint fields. -/
def handleSelectOriginal (url : String)
    (_analysis : Option YouTubeAnalyzeResponse) (mode : Mode)
    (yO : HttpOutcome SheetMusicResponse) : List Event :=
  [.setLoading true,
   .setMessage (if mode = .demucs then "音源分離を実行中..."
                else "YouTube から音声をダウンロード中..."),
   .armTimeout 10000 "音声を分析しています...",
   .armTimeout 20000 "音符を検出しています...",
   .armTimeout 30000 "楽譜を生成しています...",
   .post (.youtube ⟨jsTrim url, mode, none, none⟩)] ++
  (match transcribeYoutubeResult yO with
   | .ok r => [.deliverResult r]
   | .error m => [.showError m]) ++
  [.setLoading false, .setMessage ""]

/-- The React state cells of UploadForm relevant to orchestration, plus the
page-level `result`/`error` cells of Home (page.tsx). -/
structure FormState where
  isLoading : Bool
  loadingMessage : String
  analysis : Option YouTubeAnalyzeResponse
  result : Option SheetMusicResponse
  error : Option String
deriving DecidableEq, Repr

/-- All cells at their initial values: the Idle session. -/
def initialState : FormState :=
  ⟨false, "", none, none, none⟩

/-- Effect of one event on the state cells.  `onResult` (page.tsx
`handleResult`) stores the result and clears the error; `onError`
(`handleError`) stores the message and clears the result.  Network and
timer events do not touch the cells. -/
def applyEvent (s : FormState) (e : Event) : FormState :=
  match e with
  | .showError m => { s with error := some m, result := none }
  | .deliverResult r => { s with result := some r, error := none }
  | .setLoading b => { s with isLoading := b }
  | .setMessage m => { s with loadingMessage := m }
  | .setAnalysisState a => { s with analysis := a }
  | _ => s

/-- The state before each event of a trace and the final state. -/
def statesOf (s : FormState) : List Event → List FormState
  | [] => [s]
  | e :: t => s :: statesOf (applyEvent s e) t

/-- The screen rendered for a given state. -/
inductive View where
  | resultView (r : SheetMusicResponse)
  | loadingView (msg : String)
  | sourceChoice (a : YouTubeAnalyzeResponse)
  | inputForm
deriving DecidableEq, Repr

/-- Rendering: page.tsx shows DifficultyTabs instead of UploadForm once
`result` is set; UploadForm shows the loading screen while `isLoading`,
then the SourceSelector whenever `analysis` is set, else the input form. -/
def render (s : FormState) : View :=
  match s.result with
  | some r => .resultView r
  | none =>
    if s.isLoading then .loadingView s.loadingMessage
    else
      match s.analysis with
      | some a => .sourceChoice a
      | none => .inputForm

def View.isSourceChoice : View → Bool
  | .sourceChoice _ => true
  | _ => false

/-- Whether the AwaitingSourceChoice screen is rendered at any point while
replaying a trace from the Idle state. -/
def visitsSourceChoice (t : List Event) : Bool :=
  (statesOf initialState t).any fun s => (render s).isSourceChoice

def isPost : Event → Bool
  | .post _ => true
  | _ => false

def isEnsemblePost : Event → Bool
  | .post (.ensemble _) => true
  | _ => false

/-- Whether an event posts a youtube transcription body carrying any hint. -/
def isYoutubePostWithHints : Event → Bool
  | .post (.youtube b) => b.songTitle.isSome || b.artist.isSome
  | _ => false

def isArmTimeout : Event → Bool
  | .armTimeout _ _ => true
  | _ => false

def isClearTimeout : Event → Bool
  | .clearTimeoutEv _ => true
  | _ => false

def isArmInterval : Event → Bool
  | .armInterval _ => true
  | _ => false

def isClearInterval : Event → Bool
  | .clearIntervalEv => true
  | _ => false

/-- One selectable entry of the SourceSelector screen. -/
inductive SourceOption where
  | coverOption (c : VideoCoverCandidate)
  | demucsOption
  | directOption
deriving DecidableEq, Repr

/-- SourceSelector.tsx rendered option list: one button per cover
candidate, then — only when `demucsAvailable` — the "音源分離してから変換"
(SourceSeparated) button, then the always-present "そのまま変換" (Direct)
button.  When `demucsAvailable` is false the separated option is not
rendered at all (`{demucsAvailable && (<button .../>)}`). -/
def sourceSelectorOptions (a : YouTubeAnalyzeResponse)
    (demucsAvailable : Bool) : List SourceOption :=
  a.piano_covers.map .coverOption ++
    (if demucsAvailable then [.demucsOption] else []) ++
    [.directOption]

/-- Page-level session state held by Home (page.tsx). -/
structure PageState where
  result : Option SheetMusicResponse
  error : Option String
deriving DecidableEq, Repr

/-- Effects a DifficultyTabs button click can perform on the page. -/
inductive PageEffect where
  | scrollToTop
  | invokeReset
deriving DecidableEq, Repr

/-- DifficultyTabs.tsx "別の曲を変換" (convert another) button handler:
`onClick={() => window.scrollTo({ top: 0, behavior: "smooth" })}`.  The
component's props interface declares only `result`; the `onReset` prop
passed by page.tsx is neither declared nor invoked, so the click performs
only the scroll. -/
def convertAnotherEffects : List PageEffect :=
  [.scrollToTop]

/-- page.tsx reset closure `() => setResult(null)`, passed as `onReset`. -/
def homeOnReset (s : PageState) : PageState :=
  { s with result := none }

/-- Replay page effects: scrolling leaves the session state unchanged;
invoking the reset closure clears the result. -/
def runPageEffects (s : PageState) (l : List PageEffect) : PageState :=
  l.foldl (fun s e =>
    match e with
    | .scrollToTop => s
    | .invokeReset => homeOnReset s) s

/-! ## Theorems -/

/-- C1: for every URL analysis whose returned cover list is non-empty, the
handler dispatches the ensemble transcription itself — exactly one ensemble
request appears in its trace, with no user-confirmation step in between —
and replaying the trace from Idle never renders the AwaitingSourceChoice
screen, whatever the ensemble request's outcome. -/
theorem analyze_with_covers_skips_source_choice
    (url : String) (a : YouTubeAnalyzeResponse)
    (eO : HttpOutcome SheetMusicResponse)
    (hu : jsTrim url ≠ "") (hc : a.piano_covers.length ≥ 1) :
    visitsSourceChoice (handleAnalyze url (.success a) eO) = false ∧
    (handleAnalyze url (.success a) eO).countP isEnsemblePost = 1 := by
  cases eO <;>
    simp [handleAnalyze, hu, hc, analyzeYoutubeResult, transcribeEnsembleResult,
      visitsSourceChoice, statesOf, applyEvent, render, View.isSourceChoice,
      isEnsemblePost, initialState, List.countP_cons, List.countP_append]

/-- Witness for C1 at a one-candidate analysis and a successful ensemble
request. -/
theorem analyze_with_covers_skips_source_choice_witness :
    visitsSourceChoice (handleAnalyze "https://www.youtube.com/watch?v=abc"
        (.success ⟨⟨"v1", "T", "Ch", "th", 100, some "Song X", some "Artist Y"⟩,
          [⟨⟨"c1", "CT", "CC", "cth", 90, none, none⟩, "https://cover1"⟩]⟩)
        (.success ⟨"b", "i", "a", "C"⟩)) = false ∧
    (handleAnalyze "https://www.youtube.com/watch?v=abc"
        (.success ⟨⟨"v1", "T", "Ch", "th", 100, some "Song X", some "Artist Y"⟩,
          [⟨⟨"c1", "CT", "CC", "cth", 90, none, none⟩, "https://cover1"⟩]⟩)
        (.success ⟨"b", "i", "a", "C"⟩)).countP isEnsemblePost = 1 :=
  analyze_with_covers_skips_source_choice _ _ _ (by decide) (by decide)

/-- C2 counterexample: a valid file whose upload succeeds arms two label
timeouts while the request is outstanding, the trace contains no timer
cancellation at all, and the session reaches Complete (the result is
delivered) — so not every armed timer is cancelled when the request
resolves. -/
theorem stale_timer_counterexample :
    (handleFile ⟨"song.mp3", "audio/mpeg", 1000⟩
        (.success ⟨"X:1", "X:2", "X:3", "C"⟩)).countP isArmTimeout = 2 ∧
    (handleFile ⟨"song.mp3", "audio/mpeg", 1000⟩
        (.success ⟨"X:1", "X:2", "X:3", "C"⟩)).countP isClearTimeout = 0 ∧
    Event.deliverResult ⟨"X:1", "X:2", "X:3", "C"⟩ ∈
      handleFile ⟨"song.mp3", "audio/mpeg", 1000⟩
        (.success ⟨"X:1", "X:2", "X:3", "C"⟩) := by decide

/-- C2 (amended): no handler ever cancels a scheduled timeout — the label
timeouts armed by the file-upload and use-original handlers outlive the
request — and the ensemble step-counter interval is cancelled exactly when
the ensemble request succeeds, not when it fails. -/
theorem timer_cancellation_behavior
    (f : LocalFile) (o yO eO : HttpOutcome SheetMusicResponse)
    (url url2 : String) (an : Option YouTubeAnalyzeResponse) (m : Mode)
    (a : YouTubeAnalyzeResponse)
    (hu : jsTrim url ≠ "") (hc : a.piano_covers.length ≥ 1) :
    (handleFile f o).countP isClearTimeout = 0 ∧
    (handleSelectOriginal url2 an m yO).countP isClearTimeout = 0 ∧
    (handleAnalyze url (.success a) eO).countP isClearInterval =
      (match eO with | .success _ => 1 | _ => 0) := by
  refine ⟨?_, ?_, ?_⟩
  · unfold handleFile
    split
    · rfl
    · split
      · rfl
      · cases o <;>
          simp [transcribeUploadResult, isClearTimeout, List.countP_cons,
            List.countP_append]
  · cases yO <;>
      simp [handleSelectOriginal, transcribeYoutubeResult, isClearTimeout,
        List.countP_cons, List.countP_append]
  · cases eO <;>
      simp [handleAnalyze, hu, hc, analyzeYoutubeResult,
        transcribeEnsembleResult, isClearInterval, List.countP_cons,
        List.countP_append]

/-- Witness for C2 (amended) at concrete inputs: a valid mp3 upload, a
direct use-original call, and a one-cover analysis whose ensemble request
succeeds. -/
theorem timer_cancellation_behavior_witness :
    (handleFile ⟨"song.mp3", "audio/mpeg", 1000⟩
        (.success ⟨"b", "i", "a", "C"⟩)).countP isClearTimeout = 0 ∧
    (handleSelectOriginal "https://youtu.be/v1" none .direct
        (.success ⟨"b", "i", "a", "C"⟩)).countP isClearTimeout = 0 ∧
    (handleAnalyze "https://youtu.be/v1"
        (.success ⟨⟨"v1", "T", "Ch", "th", 100, none, none⟩,
          [⟨⟨"c1", "CT", "CC", "cth", 90, none, none⟩, "https://cover1"⟩]⟩)
        (.success ⟨"b", "i", "a", "C"⟩)).countP isClearInterval = 1 :=
  timer_cancellation_behavior ⟨"song.mp3", "audio/mpeg", 1000⟩
    (.success ⟨"b", "i", "a", "C"⟩) (.success ⟨"b", "i", "a", "C"⟩)
    (.success ⟨"b", "i", "a", "C"⟩) "https://youtu.be/v1" "https://youtu.be/v1"
    none .direct _ (by decide) (by decide)

/-- C3 counterexample: a 20 MiB + 1 file whose MIME type and name both
fail the format check is rejected with the unsupported-format message, not
the file-too-large message — the size bound is checked only after the
format check. -/
theorem oversize_wrong_error_counterexample :
    (20 * 1024 * 1024 + 1 > 20 * 1024 * 1024) ∧
    handleFile ⟨"report.txt", "text/plain", 20 * 1024 * 1024 + 1⟩
        (.failure none) = [.showError unsupportedFormatMsg] ∧
    unsupportedFormatMsg ≠ fileTooLargeMsg := by decide

/-- C3 (amended): every file larger than 20 MiB is rejected before any
network call; it fails with the FileTooLarge message when its MIME type or
filename passes the format check, and with the UnsupportedFormat message
otherwise. -/
theorem oversize_rejected_before_network
    (f : LocalFile) (o : HttpOutcome SheetMusicResponse)
    (hsize : f.size > 20 * 1024 * 1024) :
    (handleFile f o).countP isPost = 0 ∧
    ((isValidMime f.type || matchesAudioExt f.name) = true →
      handleFile f o = [.showError fileTooLargeMsg]) := by
  cases ht : isValidMime f.type <;>
    cases he : matchesAudioExt f.name <;>
      simp [handleFile, ht, he, hsize, isPost]

/-- Witness for C3 (amended) at a 21 MiB mp3 file. -/
theorem oversize_rejected_before_network_witness :
    (handleFile ⟨"big.mp3", "audio/mpeg", 21 * 1024 * 1024⟩
        (.success ⟨"b", "i", "a", "C"⟩)).countP isPost = 0 ∧
    ((isValidMime "audio/mpeg" || matchesAudioExt "big.mp3") = true →
      handleFile ⟨"big.mp3", "audio/mpeg", 21 * 1024 * 1024⟩
          (.success ⟨"b", "i", "a", "C"⟩) = [.showError fileTooLargeMsg]) :=
  oversize_rejected_before_network ⟨"big.mp3", "audio/mpeg", 21 * 1024 * 1024⟩
    (.success ⟨"b", "i", "a", "C"⟩) (by decide)

/-- C4: the DifficultyTabs "convert another" button only scrolls — the
page state is unchanged, the reset closure is never invoked, and the held
result survives the click — even though the page-level reset closure
would clear the result if it were invoked. -/
theorem convert_another_does_not_reset :
    runPageEffects ⟨some ⟨"b", "i", "a", "C"⟩, none⟩ convertAnotherEffects =
      ⟨some ⟨"b", "i", "a", "C"⟩, none⟩ ∧
    PageEffect.invokeReset ∉ convertAnotherEffects ∧
    homeOnReset ⟨some ⟨"b", "i", "a", "C"⟩, none⟩ = ⟨none, none⟩ := by decide

/-- C5: a non-empty cover list produces exactly one ensemble request, whose
body lists every cover URL in the order the analysis returned them and
carries the original video's song-title and artist hints (empty string when
absent). -/
theorem ensemble_request_order_and_hints
    (url : String) (a : YouTubeAnalyzeResponse)
    (eO : HttpOutcome SheetMusicResponse)
    (hu : jsTrim url ≠ "") (hc : a.piano_covers.length ≥ 1) :
    (handleAnalyze url (.success a) eO).countP isEnsemblePost = 1 ∧
    Event.post (.ensemble ⟨a.piano_covers.map (fun c => c.url),
        a.original.song_title.getD "", a.original.artist.getD ""⟩) ∈
      handleAnalyze url (.success a) eO := by
  cases eO <;>
    simp [handleAnalyze, hu, hc, analyzeYoutubeResult, transcribeEnsembleResult,
      isEnsemblePost, List.countP_cons, List.countP_append]

/-- Witness for C5 at a two-candidate analysis with both hints present. -/
theorem ensemble_request_order_and_hints_witness :
    (handleAnalyze "https://youtu.be/v1"
        (.success ⟨⟨"v1", "T", "Ch", "th", 100, some "Song X", some "Artist Y"⟩,
          [⟨⟨"c1", "CT", "CC", "cth", 90, none, none⟩, "https://cover1"⟩,
           ⟨⟨"c2", "CT2", "CC2", "cth2", 95, none, none⟩, "https://cover2"⟩]⟩)
        (.success ⟨"b", "i", "a", "C"⟩)).countP isEnsemblePost = 1 ∧
    Event.post (.ensemble ⟨["https://cover1", "https://cover2"],
        "Song X", "Artist Y"⟩) ∈
      handleAnalyze "https://youtu.be/v1"
        (.success ⟨⟨"v1", "T", "Ch", "th", 100, some "Song X", some "Artist Y"⟩,
          [⟨⟨"c1", "CT", "CC", "cth", 90, none, none⟩, "https://cover1"⟩,
           ⟨⟨"c2", "CT2", "CC2", "cth2", 95, none, none⟩, "https://cover2"⟩]⟩)
        (.success ⟨"b", "i", "a", "C"⟩) :=
  ensemble_request_order_and_hints _ _ _ (by decide) (by decide)

/-- C6: the SourceSeparated option appears in the rendered option list of
the source-choice screen exactly when the separation-status check resolved
with available = true; after a non-2xx status response or a network-level
status failure it is absent from the list entirely. -/
theorem demucs_option_iff_reported_available
    (a : YouTubeAnalyzeResponse) (o : HttpOutcome DemucsStatusResponse) :
    SourceOption.demucsOption ∈
        sourceSelectorOptions a (demucsAvailableAfter o) ↔
      ∃ s, o = .success s ∧ s.available = true := by
  cases o with
  | networkError m =>
    simp [sourceSelectorOptions, demucsAvailableAfter, getDemucsStatusResult]
  | failure b =>
    simp [sourceSelectorOptions, demucsAvailableAfter, getDemucsStatusResult]
  | success s =>
    cases hs : s.available <;>
      simp [sourceSelectorOptions, demucsAvailableAfter, getDemucsStatusResult, hs]

/-- C8 counterexample: a non-2xx response whose body parses as JSON with
the detail string "" does not fail with that detail verbatim — the empty
string is falsy in JavaScript, so the generic fallback message is thrown
instead. -/
theorem empty_detail_counterexample :
    transcribeUploadResult (.failure (some ⟨some ""⟩)) =
      .error "楽譜の生成に失敗しました" ∧
    "楽譜の生成に失敗しました" ≠ "" :=
  ⟨rfl, by decide⟩

/-- C8 (amended): a non-2xx response with a parseable body carrying a
non-empty detail string fails with exactly that detail; an unparseable
body fails with the fixed message "不明なエラー"; and no operation ever
returns a result from a non-2xx response.  (An empty or missing detail
falls back to the operation's generic localized message.) -/
theorem error_detail_handling (b : Option ErrorBody) :
    (∀ s, b = some ⟨some s⟩ → s ≠ "" →
      transcribeUploadResult (.failure b) = .error s ∧
      transcribeYoutubeResult (.failure b) = .error s ∧
      analyzeYoutubeResult (.failure b) = .error s) ∧
    (b = none →
      transcribeUploadResult (.failure b) = .error "不明なエラー" ∧
      transcribeYoutubeResult (.failure b) = .error "不明なエラー" ∧
      analyzeYoutubeResult (.failure b) = .error "不明なエラー") ∧
    (∀ r : SheetMusicResponse,
      transcribeUploadResult (.failure b) ≠ .ok r ∧
      transcribeYoutubeResult (.failure b) ≠ .ok r) ∧
    (∀ ar : YouTubeAnalyzeResponse,
      analyzeYoutubeResult (.failure b) ≠ .ok ar) := by
  refine ⟨?_, ?_, ?_, ?_⟩
  · rintro s rfl hs
    simp [transcribeUploadResult, transcribeYoutubeResult,
      analyzeYoutubeResult, errorDetail, jsOr, hs]
  · rintro rfl
    simp [transcribeUploadResult, transcribeYoutubeResult,
      analyzeYoutubeResult, errorDetail, jsOr]
  · intro r
    cases b <;>
      simp [transcribeUploadResult, transcribeYoutubeResult]
  · intro ar
    cases b <;> simp [analyzeYoutubeResult]

/-- Witness for C8 (amended) at the body from the spec's scenario 4. -/
theorem error_detail_handling_witness :
    transcribeUploadResult (.failure (some ⟨some "decode failed"⟩)) =
      .error "decode failed" ∧
    analyzeYoutubeResult (.failure (some ⟨some "decode failed"⟩)) =
      .error "decode failed" :=
  ⟨((error_detail_handling (some ⟨some "decode failed"⟩)).1 "decode failed"
      rfl (by decide)).1,
   ((error_detail_handling (some ⟨some "decode failed"⟩)).1 "decode failed"
      rfl (by decide)).2.2⟩
/-- C9 counterexample: a network-level failure of the status GET is not
turned into an available-false result — `getDemucsStatus` rejects, so the
failure is surfaced to the caller as an error (the caller attaches no
rejection handler and `demucsAvailable` merely stays false). -/
theorem status_network_failure_counterexample :
    getDemucsStatusResult (.networkError "Failed to fetch") =
      .error "Failed to fetch" ∧
    demucsAvailableAfter (.networkError "Failed to fetch") = false :=
  ⟨rfl, rfl⟩

/-- C9 (amended): a non-2xx response of the status GET yields
available = false with model "htdemucs" and is not surfaced as an error; a
network-level failure rejects out of getDemucsStatus, but the caller's
then-handler never runs, so demucsAvailable stays false — and whenever
demucsAvailable is false the SourceSeparated option is absent from the
rendered list. -/
theorem status_failure_handling
    (b : Option ErrorBody) (o : HttpOutcome DemucsStatusResponse)
    (a : YouTubeAnalyzeResponse)
    (h : demucsAvailableAfter o = false) :
    getDemucsStatusResult (.failure b) = .ok ⟨false, "htdemucs"⟩ ∧
    (∀ m, demucsAvailableAfter (.networkError m) = false) ∧
    SourceOption.demucsOption ∉
      sourceSelectorOptions a (demucsAvailableAfter o) := by
  refine ⟨rfl, fun m => rfl, ?_⟩
  rw [h]
  simp [sourceSelectorOptions]

/-- Witness for C9 (amended) at a rejected status GET. -/
theorem status_failure_handling_witness :
    getDemucsStatusResult (.failure none) = .ok ⟨false, "htdemucs"⟩ ∧
    (∀ m, demucsAvailableAfter (.networkError m) = false) ∧
    SourceOption.demucsOption ∉
      sourceSelectorOptions ⟨⟨"v1", "T", "Ch", "th", 100, none, none⟩, []⟩
        (demucsAvailableAfter (.networkError "Failed to fetch")) :=
  status_failure_handling none (.networkError "Failed to fetch")
    ⟨⟨"v1", "T", "Ch", "th", 100, none, none⟩, []⟩ rfl

/-- C7: at a use-original choice made from an analysis that carries both a
song title and an artist, the body posted to the youtube transcription
endpoint is exactly {url, mode} — no request in the trace carries any hint
field, because api.ts serializes only those two properties. -/
theorem youtube_hints_dropped :
    Event.post (.youtube ⟨"https://youtu.be/v1", .direct, none, none⟩) ∈
      handleSelectOriginal "https://youtu.be/v1"
        (some ⟨⟨"v1", "T", "Ch", "th", 100, some "Song X", some "Artist Y"⟩, []⟩)
        .direct (.success ⟨"b", "i", "a", "C"⟩) ∧
    (handleSelectOriginal "https://youtu.be/v1"
        (some ⟨⟨"v1", "T", "Ch", "th", 100, some "Song X", some "Artist Y"⟩, []⟩)
        .direct (.success ⟨"b", "i", "a", "C"⟩)).countP
      isYoutubePostWithHints = 0 := by decide

/-- C10: a file whose declared MIME type is outside the allow-list but
whose name ends in ".mp3" or ".wav" in any letter case, and whose size is
within the 20 MiB bound, is accepted: exactly one network call is made and
it is the upload of that file. -/
theorem extension_fallback_accepts
    (f : LocalFile) (o : HttpOutcome SheetMusicResponse)
    (_hmime : isValidMime f.type = false)
    (hext : matchesAudioExt f.name = true)
    (hsize : f.size ≤ 20 * 1024 * 1024) :
    Event.post (.upload f) ∈ handleFile f o ∧
    (handleFile f o).countP isPost = 1 := by
  have hs : ¬ (f.size > 20 * 1024 * 1024) := by omega
  cases o <;>
    simp [handleFile, hext, hs, transcribeUploadResult, isPost,
      List.countP_cons, List.countP_append]

/-- Witness for C10 at an upper-case ".MP3" name with a generic MIME
type. -/
theorem extension_fallback_accepts_witness :
    Event.post (.upload ⟨"SONG.MP3", "application/octet-stream", 1000⟩) ∈
      handleFile ⟨"SONG.MP3", "application/octet-stream", 1000⟩
        (.success ⟨"b", "i", "a", "C"⟩) ∧
    (handleFile ⟨"SONG.MP3", "application/octet-stream", 1000⟩
        (.success ⟨"b", "i", "a", "C"⟩)).countP isPost = 1 :=
  extension_fallback_accepts ⟨"SONG.MP3", "application/octet-stream", 1000⟩
    (.success ⟨"b", "i", "a", "C"⟩) (by decide) (by decide) (by decide)

end PSG
